import Mathlib

/-!
Verification of the vpn-operator controller (thavlik/vpn-operator).

This file gives a shallow embedding in Lean 4 of the parts of the operator
that the claims under scrutiny talk about:

* the slot scan (`list_active_slots` / `list_inactive_slots` in
  `operator/src/consumers/actions.rs`),
* the slot acquisition loop (`try_reserve_slot` in the same file),
* the MaskReservation delete path (`operator/src/reservations/reconcile.rs`
  and `operator/src/reservations/actions.rs`),
* the Mask phase mirror (spec section 4.6; helper `get_consumer` in
  `operator/src/masks/util.rs`).

Kubernetes API calls are modelled as oracle values passed to the embedded
functions: read calls (get/list/create) whose results drive control flow are
parameters of type `Except KubeError _`, while blind write calls (status
patches, finalizer patches, deletes whose result is only propagated with `?`)
are recorded in the result structures.  Rust `unwrap()` on a missing field is
modelled by an `Option` result of the embedded function (`none` = the
function would have panicked).
-/

/-- An owner reference as used by the operator: only the `uid` (and `name`)
fields are ever inspected by the code under scrutiny. -/
structure OwnerReference where
  name : String
  uid : String
deriving Repr, DecidableEq

/-- The subset of Kubernetes `ObjectMeta` that the embedded code reads or
writes: `name`, `namespace`, `uid`, `ownerReferences`, `deletionTimestamp`.
(`namespace` is a Lean keyword, hence the trailing apostrophe.) -/
structure ObjectMeta where
  name : Option String := none
  namespace' : Option String := none
  uid : Option String := none
  owner_references : Option (List OwnerReference) := none
  deletion_timestamp : Option String := none
  finalizers : Option (List String) := none
deriving Repr, DecidableEq

/-- Phases of a `MaskProvider` (types/src/provider.rs). -/
inductive MaskProviderPhase where
  | Pending | Verifying | Verified | Ready | Active | ErrSecretNotFound | ErrVerifyFailed
deriving Repr, DecidableEq

/-- Status object of a `MaskProvider` (types/src/provider.rs). -/
structure MaskProviderStatus where
  phase : Option MaskProviderPhase := none
  message : Option String := none
  last_updated : Option String := none
  last_verified : Option String := none
  active_slots : Option Nat := none
deriving Repr, DecidableEq

/-- Spec of a `MaskProvider` (types/src/provider.rs).  The `verify` field
(pod-template overrides for credentials verification) is not read by any of
the functions embedded here and is omitted. -/
structure MaskProviderSpec where
  secret : String := ""
  max_slots : Nat := 0
  tags : Option (List String) := none
  namespaces : Option (List String) := none
deriving Repr, DecidableEq

/-- A `MaskProvider` resource. -/
structure MaskProvider where
  metadata : ObjectMeta := {}
  spec : MaskProviderSpec := {}
  status : Option MaskProviderStatus := none
deriving Repr, DecidableEq

/-- Phases of a `MaskReservation` (types/src/reservation.rs). -/
inductive MaskReservationPhase where
  | Pending | Active | Terminating
deriving Repr, DecidableEq

/-- Status object of a `MaskReservation` (types/src/reservation.rs). -/
structure MaskReservationStatus where
  phase : Option MaskReservationPhase := none
  message : Option String := none
  last_updated : Option String := none
deriving Repr, DecidableEq

/-- Spec of a `MaskReservation` (types/src/reservation.rs): the
cross-namespace back reference to the `MaskConsumer` holding the slot. -/
structure MaskReservationSpec where
  name : String := ""
  namespace' : String := ""
  uid : String := ""
deriving Repr, DecidableEq

/-- A `MaskReservation` resource. -/
structure MaskReservation where
  metadata : ObjectMeta := {}
  spec : MaskReservationSpec := {}
  status : Option MaskReservationStatus := none
deriving Repr, DecidableEq

/-- Phases of a `MaskConsumer` (types/src/consumer.rs). -/
inductive MaskConsumerPhase where
  | Pending | Waiting | Active | Terminating | ErrNoProviders
deriving Repr, DecidableEq

/-- The `AssignedProvider` record stored in a `MaskConsumer`'s status
(types/src/consumer.rs). -/
structure AssignedProvider where
  name : String
  namespace' : String
  uid : String
  slot : Nat
  reservation : String
  secret : String
deriving Repr, DecidableEq

/-- Status object of a `MaskConsumer` (types/src/consumer.rs). -/
structure MaskConsumerStatus where
  phase : Option MaskConsumerPhase := none
  message : Option String := none
  last_updated : Option String := none
  provider : Option AssignedProvider := none
  pod : Option String := none
deriving Repr, DecidableEq

/-- Spec of a `MaskConsumer` (types/src/consumer.rs). -/
structure MaskConsumerSpec where
  providers : Option (List String) := none
deriving Repr, DecidableEq

/-- A `MaskConsumer` resource. -/
structure MaskConsumer where
  metadata : ObjectMeta := {}
  spec : MaskConsumerSpec := {}
  status : Option MaskConsumerStatus := none
deriving Repr, DecidableEq

/-- Phases of a `Mask` (types/src/mask.rs). -/
inductive MaskPhase where
  | Pending | Waiting | Active | Terminating | ErrNoProviders
deriving Repr, DecidableEq

/-- Status object of a `Mask` (types/src/mask.rs). -/
structure MaskStatus where
  phase : Option MaskPhase := none
  message : Option String := none
  last_updated : Option String := none
deriving Repr, DecidableEq

/-- Spec of a `Mask` (types/src/mask.rs). -/
structure MaskSpec where
  providers : Option (List String) := none
deriving Repr, DecidableEq

/-- A `Mask` resource. -/
structure Mask where
  metadata : ObjectMeta := {}
  spec : MaskSpec := {}
  status : Option MaskStatus := none
deriving Repr, DecidableEq

/-- Errors returned by the Kubernetes client (`kube::Error`): an API error
response carrying an HTTP status code, or anything else. -/
inductive KubeError where
  | api (code : Nat)
  | other
deriving Repr, DecidableEq

/-- The operator's own error type (`operator/src/util/error.rs`): a wrapped
`kube::Error` or a `UserInputError` with a message. -/
inductive OpError where
  | kube (e : KubeError)
  | userInput (msg : String)
deriving Repr, DecidableEq

/-- The probe interval (`operator/src/util/mod.rs`), in seconds:
`Duration::from_secs(12)`. -/
def PROBE_INTERVAL : Nat := 12

/-- Rust's `str::parse::<usize>()` on a character list: an optional leading
`+`, then one or more ASCII digits, with the value bounded by
`usize::MAX = 2^64 - 1` (64-bit target); anything else fails. -/
def parse_usize_chars (cs : List Char) : Option Nat :=
  let digits := match cs with
    | '+' :: rest => rest
    | _ => cs
  if digits.isEmpty then none
  else if digits.all Char.isDigit then
    let n := digits.foldl (fun acc c => acc * 10 + (c.toNat - 48)) 0
    if n < 2 ^ 64 then some n else none
  else none

/-- Rust's `str::parse::<usize>()`. -/
def parse_usize (s : String) : Option Nat :=
  parse_usize_chars s.data

/-- Rust's `str::split('-')` on a character list: the segments between the
`'-'` separators, keeping empty segments (so the result is never empty). -/
def split_dash : List Char → List (List Char)
  | [] => [[]]
  | c :: cs =>
    let rest := split_dash cs
    if c = '-' then [] :: rest
    else
      match rest with
      | r :: rs => (c :: r) :: rs
      | [] => [[c]]

/-- The slot number encoded in a reservation name:
`name.split('-').last().map(|slot| slot.parse::<usize>().ok()).flatten()`
from `list_active_slots` (operator/src/consumers/actions.rs). -/
def slot_of_name (name : String) : Option Nat :=
  ((split_dash name.data).getLast?).bind parse_usize_chars

/-- The owner filter of `list_active_slots`:
`meta.owner_references.as_ref().map_or(false, |orefs| orefs.iter().any(|o| o.uid == provider_uid))`. -/
def owns_by (m : ObjectMeta) (provider_uid : String) : Bool :=
  (m.owner_references.getD []).any (fun o => o.uid == provider_uid)

/-- Embedding of `list_active_slots` (operator/src/consumers/actions.rs).
The `rs` argument is the result of listing the `MaskReservation` resources in
the provider's namespace.  Returns `none` when the Rust code would panic
(provider uid missing, or a filtered reservation without a name). -/
def list_active_slots (provider : MaskProvider) (rs : List MaskReservation) :
    Option (List Nat) :=
  match provider.metadata.uid with
  | none => none
  | some provider_uid =>
    let metas := (rs.map MaskReservation.metadata).filter (fun m => owns_by m provider_uid)
    if metas.all (fun m => m.name.isSome) then
      some (metas.filterMap (fun m => m.name.bind slot_of_name))
    else none

/-- Embedding of `list_inactive_slots` (operator/src/consumers/actions.rs):
`(0..provider.spec.max_slots).filter(|slot| !active_slots.contains(slot))`. -/
def list_inactive_slots (provider : MaskProvider) (rs : List MaskReservation) :
    Option (List Nat) :=
  match list_active_slots provider rs with
  | none => none
  | some active_slots =>
    some ((List.range provider.spec.max_slots).filter (fun slot => !active_slots.contains slot))

/-- Membership in the occupied-slot list computed by `list_active_slots`. -/
theorem mem_active_slots (rs : List MaskReservation) (u : String)
    (i : Nat) :
    (i ∈ ((rs.map MaskReservation.metadata).filter (fun m => owns_by m u)).filterMap
        (fun m => m.name.bind slot_of_name)) ↔
      ∃ r ∈ rs, owns_by r.metadata u = true ∧ r.metadata.name.bind slot_of_name = some i := by
  rw [List.mem_filterMap]
  constructor
  · rintro ⟨m, hm, hf⟩
    rw [List.mem_filter] at hm
    obtain ⟨hmm, hown⟩ := hm
    obtain ⟨r, hr, rfl⟩ := List.mem_map.mp hmm
    exact ⟨r, hr, hown, hf⟩
  · rintro ⟨r, hr, hown, hf⟩
    exact ⟨r.metadata, List.mem_filter.mpr ⟨List.mem_map.mpr ⟨r, hr, rfl⟩, hown⟩, hf⟩

/-- C3: for a provider with capacity `maxSlots`, the slot scan derives the
occupied set from exactly the listed reservations carrying an owner reference
with the provider's uid, parsing the segment after the last dash of each such
reservation's name as an unsigned integer and ignoring unparsable names; the
free list returned by `list_inactive_slots` is exactly
`{0, ..., maxSlots-1}` minus the occupied set, in increasing order. -/
theorem list_inactive_slots_spec (p : MaskProvider) (rs : List MaskReservation) (u : String)
    (hu : p.metadata.uid = some u)
    (hn : ∀ r ∈ rs, owns_by r.metadata u = true → r.metadata.name.isSome = true) :
    ∃ l, list_inactive_slots p rs = some l ∧
      List.Pairwise (· < ·) l ∧
      ∀ i : Nat, i ∈ l ↔ i < p.spec.max_slots ∧
        ¬ ∃ r ∈ rs, owns_by r.metadata u = true ∧
          r.metadata.name.bind slot_of_name = some i := by
  have hall : ((rs.map MaskReservation.metadata).filter (fun m => owns_by m u)).all
      (fun m => m.name.isSome) = true := by
    rw [List.all_eq_true]
    intro m hm
    rw [List.mem_filter] at hm
    obtain ⟨hmm, hown⟩ := hm
    obtain ⟨r, hr, rfl⟩ := List.mem_map.mp hmm
    exact hn r hr hown
  have hactive : list_active_slots p rs =
      some (((rs.map MaskReservation.metadata).filter (fun m => owns_by m u)).filterMap
        (fun m => m.name.bind slot_of_name)) := by
    unfold list_active_slots
    rw [hu]
    simp only [hall, if_true]
  refine ⟨(List.range p.spec.max_slots).filter (fun slot =>
      !(((rs.map MaskReservation.metadata).filter (fun m => owns_by m u)).filterMap
        (fun m => m.name.bind slot_of_name)).contains slot), ?_, ?_, ?_⟩
  · unfold list_inactive_slots
    rw [hactive]
  · exact List.Pairwise.sublist (List.filter_sublist _) (List.pairwise_lt_range _)
  · intro i
    rw [List.mem_filter, List.mem_range]
    have hc : ∀ a : List Nat, ((!a.contains i) = true) ↔ ¬ i ∈ a := by
      intro a
      rw [Bool.not_eq_true']
      constructor
      · intro h hmem
        have he : List.elem i a = true := List.elem_iff.mpr hmem
        simp only [List.contains] at h
        rw [h] at he
        exact Bool.false_ne_true he
      · intro h
        cases hcc : a.contains i
        · rfl
        · exact absurd (List.elem_iff.mp (by simpa [List.contains] using hcc)) h
    rw [hc, mem_active_slots rs u i]

/-- Witness provider for the slot-scan theorem: uid `pu`, capacity 4. -/
def providerW : MaskProvider :=
  { metadata := { name := some "pv", namespace' := some "vpn", uid := some "pu" },
    spec := { secret := "creds", max_slots := 4 } }

/-- Builds a concrete reservation in namespace `vpn`, owned by the provider
named `pv` with the given owner uid, back-referencing a consumer. -/
def resW (nm ouid cn cu : String) : MaskReservation where
  metadata :=
    { name := some nm
      namespace' := some "vpn"
      owner_references := some [{ name := "pv", uid := ouid }] }
  spec := { name := cn, namespace' := "apps", uid := cu }

/-- Witness reservations: slots 0 and 2 held by `providerW`, one reservation
with an unparsable suffix, one owned by a different provider on slot 1. -/
def reservationsW : List MaskReservation :=
  [resW "pv-0" "pu" "m0" "cu0",
   resW "pv-2" "pu" "m2" "cu2",
   resW "pv-weird" "pu" "mw" "cuw",
   resW "pv-1" "other" "m1" "cu1"]

/-- Witness for the slot-scan theorem at a concrete provider and reservation
list: the hypotheses hold and the characterization follows. -/
theorem list_inactive_slots_spec_witness :
    ∃ l, list_inactive_slots providerW reservationsW = some l ∧
      List.Pairwise (· < ·) l ∧
      ∀ i : Nat, i ∈ l ↔ i < providerW.spec.max_slots ∧
        ¬ ∃ r ∈ reservationsW, owns_by r.metadata "pu" = true ∧
          r.metadata.name.bind slot_of_name = some i :=
  list_inactive_slots_spec providerW reservationsW "pu" rfl (by decide)

example : list_inactive_slots providerW reservationsW = some [1, 3] := by decide

/-- The `controller_owner_ref` helper of the kube crate: an owner reference
built from a resource's metadata, available only when both `name` and `uid`
are set (the call sites unwrap the result). -/
def controller_owner_ref (m : ObjectMeta) : Option OwnerReference :=
  match m.name, m.uid with
  | some n, some u => some { name := n, uid := u }
  | _, _ => none

/-- The `MaskReservation` object that `create_reservation`
(operator/src/consumers/actions.rs) passes to the API server: named
`{provider-name}-{slot}` in the provider's namespace, owner-referenced to the
provider, spec carrying the consumer's `{name, namespace, uid}`.  `none` when
the Rust code would panic (provider name or uid missing). -/
def create_reservation_obj (name namespace' : String) (provider : MaskProvider)
    (slot : Nat) (owner_uid : String) : Option MaskReservation :=
  match provider.metadata.name, controller_owner_ref provider.metadata with
  | some pname, some oref =>
    some { metadata :=
             { name := some (pname ++ "-" ++ Nat.repr slot)
               namespace' := provider.metadata.namespace'
               owner_references := some [oref] }
           spec := { name := name, namespace' := namespace', uid := owner_uid }
           status := none }
  | _, _ => none

/-- The effect of `patch_status` (operator/src/util/patch.rs) on a
`MaskConsumer` status: apply the callback to the status (defaulted when
absent) and stamp `lastUpdated` with the current time `now`. -/
def patch_status_mc (now : String) (status : Option MaskConsumerStatus)
    (f : MaskConsumerStatus → MaskConsumerStatus) : MaskConsumerStatus :=
  let s := f (status.getD {})
  { s with last_updated := some now }

/-- The guard `Err(kube::Error::Api(e)) if e.code == 409` of
`try_reserve_slot`. -/
def is_conflict : KubeError → Bool
  | KubeError.api code => code == 409
  | KubeError.other => false

/-- Outcome of one `try_reserve_slot` attempt: a slot was reserved and the
consumer's status patched (`Ok(true)` plus the written status), all free
slots were already taken (`Ok(false)`), or an error was returned. -/
inductive ReserveResult where
  | reserved (slot : Nat) (patched : MaskConsumerStatus)
  | exhausted
  | failed (e : KubeError)
deriving Repr, DecidableEq

/-- The `for slot in slots` loop of `try_reserve_slot`
(operator/src/consumers/actions.rs).  `api_create` is the API server's
response to creating a given reservation object.  Returns `none` when the
Rust code would panic (missing provider name/uid, or a created reservation
without a uid). -/
def reserve_loop (api_create : MaskReservation → Except KubeError MaskReservation)
    (now name namespace' : String) (instance' : MaskConsumer) (provider : MaskProvider)
    (owner_uid provider_name provider_namespace : String) :
    List Nat → Option ReserveResult
  | [] => some ReserveResult.exhausted
  | slot :: rest =>
    match create_reservation_obj name namespace' provider slot owner_uid with
    | none => none
    | some obj =>
      match api_create obj with
      | Except.error e =>
        if is_conflict e then
          reserve_loop api_create now name namespace' instance' provider
            owner_uid provider_name provider_namespace rest
        else some (ReserveResult.failed e)
      | Except.ok reservation =>
        match provider.metadata.uid, reservation.metadata.uid with
        | some provider_uid, some res_uid =>
          let msg := "reserved slot " ++ Nat.repr slot ++ " for MaskProvider "
            ++ provider_namespace ++ "/" ++ provider_name
          let secret := name ++ "-" ++ provider_uid
          some (ReserveResult.reserved slot (patch_status_mc now instance'.status
            (fun status =>
              { status with
                  provider := some { name := provider_name
                                     namespace' := provider_namespace
                                     uid := provider_uid
                                     slot := slot
                                     reservation := res_uid
                                     secret := secret }
                  message := some msg })))
        | _, _ => none

/-- Embedding of `try_reserve_slot` (operator/src/consumers/actions.rs):
unwrap the consumer uid and the provider's name/namespace, compute the free
slots, then run the acquisition loop. -/
def try_reserve_slot (api_create : MaskReservation → Except KubeError MaskReservation)
    (now name namespace' : String) (instance' : MaskConsumer) (provider : MaskProvider)
    (rs : List MaskReservation) : Option ReserveResult :=
  match instance'.metadata.uid, provider.metadata.name, provider.metadata.namespace' with
  | some owner_uid, some provider_name, some provider_namespace =>
    match list_inactive_slots provider rs with
    | none => none
    | some slots =>
      reserve_loop api_create now name namespace' instance' provider
        owner_uid provider_name provider_namespace slots
  | _, _, _ => none

/-- The API response to the create attempt for a given slot (specification
shorthand: the object handed to the API is the one built by
`create_reservation_obj`). -/
def slot_attempt (api_create : MaskReservation → Except KubeError MaskReservation)
    (name namespace' : String) (provider : MaskProvider) (owner_uid : String)
    (slot : Nat) : Except KubeError MaskReservation :=
  match create_reservation_obj name namespace' provider slot owner_uid with
  | some obj => api_create obj
  | none => Except.error KubeError.other

/-- Whether an attempt outcome is the Conflict (HTTP 409) branch. -/
def conflict409 (r : Except KubeError MaskReservation) : Bool :=
  match r with
  | Except.error e => is_conflict e
  | Except.ok _ => false

/-- The reservation object built for a given slot, when the provider has a
name and a uid. -/
theorem create_obj_eq (name ns : String) (provider : MaskProvider) (owner_uid : String)
    (pname puid : String) (h2 : provider.metadata.name = some pname)
    (h4 : provider.metadata.uid = some puid) (slot : Nat) :
    create_reservation_obj name ns provider slot owner_uid =
      some { metadata :=
               { name := some (pname ++ "-" ++ Nat.repr slot)
                 namespace' := provider.metadata.namespace'
                 owner_references := some [{ name := pname, uid := puid }] }
             spec := { name := name, namespace' := ns, uid := owner_uid }
             status := none } := by
  unfold create_reservation_obj controller_owner_ref
  rw [h2, h4]

/-- A Conflict outcome is an API error whose code passes the 409 guard. -/
theorem conflict409_eq_true {r : Except KubeError MaskReservation}
    (h : conflict409 r = true) :
    ∃ e, r = Except.error e ∧ is_conflict e = true := by
  cases r with
  | ok v => simp [conflict409] at h
  | error e => exact ⟨e, rfl, by simpa [conflict409] using h⟩

/-- If the create attempt for every free slot answers Conflict, the loop
falls through and reports no reservation (Ok(false)). -/
theorem reserve_loop_all_conflict
    (api_create : MaskReservation → Except KubeError MaskReservation)
    (now name ns : String) (inst : MaskConsumer) (provider : MaskProvider)
    (owner_uid pname pns puid : String)
    (h2 : provider.metadata.name = some pname)
    (h4 : provider.metadata.uid = some puid) (slots : List Nat)
    (hall : ∀ s ∈ slots,
      conflict409 (slot_attempt api_create name ns provider owner_uid s) = true) :
    reserve_loop api_create now name ns inst provider owner_uid pname pns slots =
      some ReserveResult.exhausted := by
  induction slots with
  | nil => rfl
  | cons s rest ih =>
    obtain ⟨obj, hobj⟩ : ∃ obj, create_reservation_obj name ns provider s owner_uid = some obj :=
      ⟨_, create_obj_eq name ns provider owner_uid pname puid h2 h4 s⟩
    have hc : conflict409 (slot_attempt api_create name ns provider owner_uid s) = true :=
      hall s (List.mem_cons_self s rest)
    simp only [slot_attempt, hobj] at hc
    obtain ⟨e, hres, hce⟩ := conflict409_eq_true hc
    simp only [reserve_loop, hobj, hres]
    rw [if_pos hce]
    exact ih (fun t ht => hall t (List.mem_cons_of_mem s ht))

/-- Behavior of the loop at the first free slot whose create attempt is not
a Conflict: an `Ok` ends the loop with the status patch, any other error is
returned as the attempt's error. -/
theorem reserve_loop_find
    (api_create : MaskReservation → Except KubeError MaskReservation)
    (now name ns : String) (inst : MaskConsumer) (provider : MaskProvider)
    (owner_uid pname pns puid : String)
    (h2 : provider.metadata.name = some pname)
    (h4 : provider.metadata.uid = some puid) (slots : List Nat) (s₀ : Nat)
    (hfind : slots.find?
      (fun s => !conflict409 (slot_attempt api_create name ns provider owner_uid s)) = some s₀) :
    (∀ e, slot_attempt api_create name ns provider owner_uid s₀ = Except.error e →
      reserve_loop api_create now name ns inst provider owner_uid pname pns slots =
        some (ReserveResult.failed e)) ∧
    (∀ r ruid, slot_attempt api_create name ns provider owner_uid s₀ = Except.ok r →
      r.metadata.uid = some ruid →
      reserve_loop api_create now name ns inst provider owner_uid pname pns slots =
        some (ReserveResult.reserved s₀ (patch_status_mc now inst.status (fun status =>
          { status with
              provider := some { name := pname
                                 namespace' := pns
                                 uid := puid
                                 slot := s₀
                                 reservation := ruid
                                 secret := name ++ "-" ++ puid }
              message := some ("reserved slot " ++ Nat.repr s₀ ++ " for MaskProvider "
                ++ pns ++ "/" ++ pname) })))) := by
  revert hfind
  induction slots with
  | nil => intro hfind; simp at hfind
  | cons s rest ih =>
    intro hfind
    obtain ⟨obj, hobj⟩ : ∃ obj, create_reservation_obj name ns provider s owner_uid = some obj :=
      ⟨_, create_obj_eq name ns provider owner_uid pname puid h2 h4 s⟩
    by_cases hcs : conflict409 (slot_attempt api_create name ns provider owner_uid s) = true
    · have hfind' : rest.find?
          (fun t => !conflict409 (slot_attempt api_create name ns provider owner_uid t))
            = some s₀ := by
        rwa [List.find?_cons_of_neg _ (by simp [hcs])] at hfind
      have hrec := ih hfind'
      have hstep : reserve_loop api_create now name ns inst provider owner_uid pname pns
          (s :: rest) =
          reserve_loop api_create now name ns inst provider owner_uid pname pns rest := by
        simp only [slot_attempt, hobj] at hcs
        obtain ⟨e, hres, hce⟩ := conflict409_eq_true hcs
        simp only [reserve_loop, hobj, hres]
        rw [if_pos hce]
      refine ⟨fun e he => ?_, fun r ruid hr huid => ?_⟩
      · rw [hstep]
        exact hrec.1 e he
      · rw [hstep]
        exact hrec.2 r ruid hr huid
    · rw [Bool.not_eq_true] at hcs
      have hs0 : s₀ = s := by
        rw [List.find?_cons_of_pos _ (by simp [Bool.not_eq_true', hcs])] at hfind
        exact (Option.some_inj.mp hfind).symm
      subst hs0
      refine ⟨fun e he => ?_, fun r ruid hr huid => ?_⟩
      · simp only [slot_attempt, hobj] at he
        simp only [slot_attempt, hobj, he, conflict409] at hcs
        have hne : ¬ is_conflict e = true := by
          rw [hcs]
          exact Bool.false_ne_true
        simp only [reserve_loop, hobj, he]
        rw [if_neg hne]
      · simp only [slot_attempt, hobj] at hr
        simp only [reserve_loop, hobj, hr, h4, huid]

/-- C1: during slot acquisition, each free slot index is attempted in order
with a create of the reservation named `{provider-name}-{slot}`; a Conflict
(409) answer moves the loop to the next free index without an error, the
first successful create ends the loop by patching the consumer's status with
the `AssignedProvider` record and returning success, and any non-Conflict
create error makes the attempt return that error. -/
theorem try_reserve_slot_spec
    (api_create : MaskReservation → Except KubeError MaskReservation)
    (now name ns : String) (inst : MaskConsumer) (provider : MaskProvider)
    (rs : List MaskReservation) (slots : List Nat)
    (owner_uid pname pns puid : String)
    (h1 : inst.metadata.uid = some owner_uid)
    (h2 : provider.metadata.name = some pname)
    (h3 : provider.metadata.namespace' = some pns)
    (h4 : provider.metadata.uid = some puid)
    (h5 : list_inactive_slots provider rs = some slots) :
    (∀ slot, create_reservation_obj name ns provider slot owner_uid =
      some { metadata :=
               { name := some (pname ++ "-" ++ Nat.repr slot)
                 namespace' := provider.metadata.namespace'
                 owner_references := some [{ name := pname, uid := puid }] }
             spec := { name := name, namespace' := ns, uid := owner_uid }
             status := none }) ∧
    ((∀ s ∈ slots,
        conflict409 (slot_attempt api_create name ns provider owner_uid s) = true) →
      try_reserve_slot api_create now name ns inst provider rs =
        some ReserveResult.exhausted) ∧
    (∀ s₀, slots.find?
        (fun s => !conflict409 (slot_attempt api_create name ns provider owner_uid s))
          = some s₀ →
      (∀ e, slot_attempt api_create name ns provider owner_uid s₀ = Except.error e →
        try_reserve_slot api_create now name ns inst provider rs =
          some (ReserveResult.failed e)) ∧
      (∀ r ruid, slot_attempt api_create name ns provider owner_uid s₀ = Except.ok r →
        r.metadata.uid = some ruid →
        try_reserve_slot api_create now name ns inst provider rs =
          some (ReserveResult.reserved s₀ (patch_status_mc now inst.status (fun status =>
            { status with
                provider := some { name := pname
                                   namespace' := pns
                                   uid := puid
                                   slot := s₀
                                   reservation := ruid
                                   secret := name ++ "-" ++ puid }
                message := some ("reserved slot " ++ Nat.repr s₀ ++ " for MaskProvider "
                  ++ pns ++ "/" ++ pname) }))))) := by
  have hun : try_reserve_slot api_create now name ns inst provider rs =
      reserve_loop api_create now name ns inst provider owner_uid pname pns slots := by
    simp only [try_reserve_slot, h1, h2, h3, h5]
  refine ⟨create_obj_eq name ns provider owner_uid pname puid h2 h4, ?_, ?_⟩
  · intro hall
    rw [hun]
    exact reserve_loop_all_conflict api_create now name ns inst provider
      owner_uid pname pns puid h2 h4 slots hall
  · intro s₀ hfind
    have h := reserve_loop_find api_create now name ns inst provider
      owner_uid pname pns puid h2 h4 slots s₀ hfind
    exact ⟨fun e he => hun ▸ h.1 e he, fun r ruid hr huid => hun ▸ h.2 r ruid hr huid⟩

/-- Witness consumer requesting a slot. -/
def consumerW : MaskConsumer :=
  { metadata := { name := some "m1", namespace' := some "apps", uid := some "cu1" } }

/-- Witness API behavior: the create for slot 1 answers Conflict (409); any
other create succeeds and the server fills in the reservation uid. -/
def apiW (obj : MaskReservation) : Except KubeError MaskReservation :=
  if obj.metadata.name == some "pv-1" then Except.error (KubeError.api 409)
  else Except.ok { obj with metadata := { obj.metadata with uid := some "resuid" } }

/-- The reservation object the witness API returns for slot 3. -/
def rW : MaskReservation :=
  { metadata := { name := some ("pv" ++ "-" ++ Nat.repr 3)
                  namespace' := some "vpn"
                  uid := some "resuid"
                  owner_references := some [{ name := "pv", uid := "pu" }] }
    spec := { name := "m1", namespace' := "apps", uid := "cu1" } }

/-- Witness for the slot-acquisition theorem: free slots are `[1, 3]`, slot 1
answers Conflict, slot 3 succeeds, so the attempt reserves slot 3 and patches
the consumer's status with the `AssignedProvider` record. -/
theorem try_reserve_slot_spec_witness :
    try_reserve_slot apiW "TS" "m1" "apps" consumerW providerW reservationsW =
      some (ReserveResult.reserved 3 (patch_status_mc "TS" consumerW.status (fun status =>
        { status with
            provider := some { name := "pv"
                               namespace' := "vpn"
                               uid := "pu"
                               slot := 3
                               reservation := "resuid"
                               secret := "m1" ++ "-" ++ "pu" }
            message := some ("reserved slot " ++ Nat.repr 3 ++ " for MaskProvider "
              ++ "vpn" ++ "/" ++ "pv") }))) :=
  ((try_reserve_slot_spec apiW "TS" "m1" "apps" consumerW providerW reservationsW
      [1, 3] "cu1" "pv" "vpn" "pu" rfl rfl rfl rfl (by decide)).2.2 3 (by decide)).2
    rW "resuid" rfl rfl

/-- The finalizer token (`operator/src/util/mod.rs`). -/
def FINALIZER_NAME : String := "vpn.beebs.dev/finalizer"

/-- The guard `Err(kube::Error::Api(ae)) if ae.code == 404` used at the
consumer lookup sites. -/
def is_not_found : KubeError → Bool
  | KubeError.api code => code == 404
  | KubeError.other => false

/-- Embedding of `needs_finalizer` (operator/src/reservations/reconcile.rs):
the finalizer string is absent from the metadata.  `ResourceExt::finalizers()`
yields the empty list when the field is unset. -/
def reservation_needs_finalizer (instance' : MaskReservation) : Bool :=
  !((instance'.metadata.finalizers.getD []).any (fun f => f == FINALIZER_NAME))

/-- Embedding of `needs_pending` (operator/src/reservations/reconcile.rs). -/
def reservation_needs_pending (instance' : MaskReservation) : Bool :=
  reservation_needs_finalizer instance' ||
    (match instance'.status with
     | none => true
     | some s => s.phase.isNone)

/-- Embedding of `get_reservation_phase`
(operator/src/reservations/reconcile.rs).  The age of the status is the wall
clock minus the parsed `lastUpdated` timestamp; the subtraction is abstracted
by the `age?` oracle (`none` models a timestamp that fails to parse). -/
def get_reservation_phase (age? : Option Nat) (instance' : MaskReservation) :
    Except OpError (MaskReservationPhase × Nat) :=
  match instance'.status with
  | none => Except.error (OpError.userInput "No status")
  | some status =>
    match status.phase with
    | none => Except.error (OpError.userInput "No phase")
    | some phase =>
      match status.last_updated, age? with
      | none, _ => Except.error (OpError.userInput "No lastUpdated")
      | some _, some age => Except.ok (phase, age)
      | some _, none => Except.error (OpError.userInput "timestamp parse error")

/-- Embedding of the reservation reconciler's `get_consumer`
(operator/src/reservations/reconcile.rs): the paired `MaskConsumer`, looked
up by `spec.namespace`/`spec.name` (the `lookup` oracle is the API's answer
to that get), is returned only with a matching `spec.uid`; a uid mismatch or
a 404 yields `None`. -/
def reservation_get_consumer (lookup : Except KubeError MaskConsumer)
    (instance' : MaskReservation) : Except KubeError (Option MaskConsumer) :=
  match lookup with
  | Except.ok consumer =>
    if consumer.metadata.uid.any (fun uid => uid == instance'.spec.uid) then
      Except.ok (some consumer)
    else Except.ok none
  | Except.error e =>
    if is_not_found e then Except.ok none else Except.error e

/-- Action decided for a `MaskReservation`
(operator/src/reservations/reconcile.rs). -/
inductive ReservationAction where
  | Pending
  | Delete (delete_resource : Bool)
  | Active
  | NoOp
deriving Repr, DecidableEq

/-- Embedding of the reservation reconciler's `determine_status_action`. -/
def reservation_determine_status_action (age? : Option Nat)
    (instance' : MaskReservation) : Except OpError ReservationAction :=
  match get_reservation_phase age? instance' with
  | Except.error e => Except.error e
  | Except.ok (phase, age) =>
    if phase ≠ MaskReservationPhase.Active ∨ age > PROBE_INTERVAL then
      Except.ok ReservationAction.Active
    else Except.ok ReservationAction.NoOp

/-- Embedding of the reservation reconciler's `determine_action`
(operator/src/reservations/reconcile.rs). -/
def reservation_determine_action (lookup : Except KubeError MaskConsumer)
    (age? : Option Nat) (instance' : MaskReservation) :
    Except OpError ReservationAction :=
  if instance'.metadata.deletion_timestamp.isSome = true then
    Except.ok (ReservationAction.Delete false)
  else if reservation_needs_pending instance' = true then
    Except.ok ReservationAction.Pending
  else
    match reservation_get_consumer lookup instance' with
    | Except.error e => Except.error (OpError.kube e)
    | Except.ok none => Except.ok (ReservationAction.Delete true)
    | Except.ok (some _) => reservation_determine_status_action age? instance'

/-- Embedding of `delete_consumer` (operator/src/reservations/actions.rs):
returns `true` when the paired consumer no longer exists (404 or uid
mismatch), `false` after issuing a delete for a matching consumer.  `del` is
the API's answer to that delete call.  The second component records whether
the delete call was issued. -/
def delete_consumer (lookup : Except KubeError MaskConsumer)
    (del : Except KubeError Unit) (instance' : MaskReservation) :
    Except OpError (Bool × Bool) :=
  match lookup with
  | Except.ok mc =>
    if mc.metadata.uid.any (fun uid => instance'.spec.uid == uid) then
      match del with
      | Except.ok _ => Except.ok (false, true)
      | Except.error e => Except.error (OpError.kube e)
    else Except.ok (true, false)
  | Except.error e =>
    if is_not_found e then Except.ok (true, false) else Except.error (OpError.kube e)

/-- Trace of the write phase of a reservation reconciliation that chose
`ReservationAction::Delete`: which API writes were issued and whether the
pass requeues (`requeued = true` means `requeue(PROBE_INTERVAL)` keeping the
finalizer, `false` means `await_change()` after removing it). -/
structure DeletePassResult where
  terminating_patched : Bool
  consumer_delete_requested : Bool
  finalizer_removed : Bool
  requeued : Bool
  resource_delete_requested : Bool
deriving Repr, DecidableEq

/-- Embedding of the `ReservationAction::Delete { delete_resource }` branch
of the reservation reconciler's write phase
(operator/src/reservations/reconcile.rs): patch phase Terminating, run
`delete_consumer`; when it reports the consumer gone remove the finalizer
and await change, otherwise keep the finalizer and requeue; finally delete
the resource itself when `delete_resource` is set. -/
def reservation_delete_pass (lookup : Except KubeError MaskConsumer)
    (del : Except KubeError Unit) (delete_resource : Bool)
    (instance' : MaskReservation) : Except OpError DeletePassResult :=
  match delete_consumer lookup del instance' with
  | Except.error e => Except.error e
  | Except.ok (gone, del_req) =>
    Except.ok { terminating_patched := true
                consumer_delete_requested := del_req
                finalizer_removed := gone
                requeued := !gone
                resource_delete_requested := delete_resource }

/-- C2: on the reservation delete path (deletion timestamp set) the decided
action is `Delete { delete_resource: false }`; the pass removes the finalizer
exactly when the paired consumer, looked up by `spec.namespace`/`spec.name`,
is observed missing (404) or with a uid different from `spec.uid`; whenever a
consumer with matching uid still exists, the pass deletes that consumer and
requeues while keeping the finalizer — so the reservation is never released
for garbage collection while its paired consumer exists with matching uid. -/
theorem reservation_delete_path (mr : MaskReservation)
    (lookup : Except KubeError MaskConsumer) (del : Except KubeError Unit)
    (age? : Option Nat)
    (hdel : mr.metadata.deletion_timestamp.isSome = true) :
    reservation_determine_action lookup age? mr =
      Except.ok (ReservationAction.Delete false) ∧
    (∀ res, reservation_delete_pass lookup del false mr = Except.ok res →
      res.finalizer_removed = true →
        (∃ e, lookup = Except.error e ∧ is_not_found e = true) ∨
        (∃ mc, lookup = Except.ok mc ∧
          mc.metadata.uid.any (fun uid => mr.spec.uid == uid) = false)) ∧
    (∀ mc, lookup = Except.ok mc →
      mc.metadata.uid.any (fun uid => mr.spec.uid == uid) = true →
      del = Except.ok () →
      reservation_delete_pass lookup del false mr =
        Except.ok { terminating_patched := true
                    consumer_delete_requested := true
                    finalizer_removed := false
                    requeued := true
                    resource_delete_requested := false }) ∧
    (∀ e, lookup = Except.error e → is_not_found e = true →
      reservation_delete_pass lookup del false mr =
        Except.ok { terminating_patched := true
                    consumer_delete_requested := false
                    finalizer_removed := true
                    requeued := false
                    resource_delete_requested := false }) ∧
    (∀ mc, lookup = Except.ok mc →
      mc.metadata.uid.any (fun uid => mr.spec.uid == uid) = false →
      reservation_delete_pass lookup del false mr =
        Except.ok { terminating_patched := true
                    consumer_delete_requested := false
                    finalizer_removed := true
                    requeued := false
                    resource_delete_requested := false }) := by
  refine ⟨?_, ?_, ?_, ?_, ?_⟩
  · unfold reservation_determine_action
    rw [if_pos hdel]
  · intro res hres hrem
    cases lookup with
    | ok mc =>
      cases hm : mc.metadata.uid.any (fun uid => mr.spec.uid == uid) with
      | false => exact Or.inr ⟨mc, rfl, hm⟩
      | true =>
        simp only [reservation_delete_pass, delete_consumer, hm, if_pos] at hres
        cases del with
        | ok u =>
          simp only [Except.ok.injEq] at hres
          rw [← hres] at hrem
          simp at hrem
        | error e => simp at hres
    | error e =>
      cases hnf : is_not_found e with
      | true => exact Or.inl ⟨e, rfl, hnf⟩
      | false =>
        simp only [reservation_delete_pass, delete_consumer, hnf] at hres
        simp at hres
  · intro mc hmc hm hdelok
    subst hmc
    subst hdelok
    simp only [reservation_delete_pass, delete_consumer, hm, if_pos]
    rfl
  · intro e hmc hnf
    subst hmc
    simp only [reservation_delete_pass, delete_consumer, hnf, if_pos]
    rfl
  · intro mc hmc hm
    subst hmc
    simp only [reservation_delete_pass, delete_consumer, hm]
    rfl

/-- Witness reservation under deletion, paired with consumer `cu1`. -/
def mrW : MaskReservation :=
  { metadata := { name := some "pv-0"
                  namespace' := some "vpn"
                  deletion_timestamp := some "2024-01-01T00:00:00Z"
                  finalizers := some [FINALIZER_NAME] }
    spec := { name := "m1", namespace' := "apps", uid := "cu1" } }

/-- Witness for the reservation delete path at a concrete reservation whose
paired consumer still exists with matching uid: the consumer is deleted, the
pass requeues, and the finalizer stays. -/
theorem reservation_delete_path_witness :
    reservation_determine_action (Except.ok consumerW) (some 0) mrW =
      Except.ok (ReservationAction.Delete false) ∧
    reservation_delete_pass (Except.ok consumerW) (Except.ok ()) false mrW =
      Except.ok { terminating_patched := true
                  consumer_delete_requested := true
                  finalizer_removed := false
                  requeued := true
                  resource_delete_requested := false } := by
  have h := reservation_delete_path mrW (Except.ok consumerW) (Except.ok ()) (some 0) rfl
  exact ⟨h.1, h.2.2.1 consumerW rfl (by decide) rfl⟩

/-- Embedding of the Mask reconciler's `needs_pending`
(operator/src/masks/reconcile.rs): no status object or no phase. -/
def mask_needs_pending (instance' : Mask) : Bool :=
  match instance'.status with
  | none => true
  | some s => s.phase.isNone

/-- Embedding of `get_mask_phase` (operator/src/masks/reconcile.rs).  As for
reservations, the wall-clock age of the status is supplied by the `age?`
oracle (`none` models a `lastUpdated` that fails to parse). -/
def get_mask_phase (age? : Option Nat) (instance' : Mask) :
    Except OpError (MaskPhase × Nat) :=
  match instance'.status with
  | none => Except.error (OpError.userInput "No status")
  | some status =>
    match status.phase with
    | none => Except.error (OpError.userInput "No phase")
    | some phase =>
      match status.last_updated, age? with
      | none, _ => Except.error (OpError.userInput "No lastUpdated")
      | some _, some age => Except.ok (phase, age)
      | some _, none => Except.error (OpError.userInput "timestamp parse error")

/-- Embedding of the Mask reconciler's `get_consumer`
(operator/src/masks/util.rs): the child `MaskConsumer` with the Mask's name,
in the Mask's namespace, accepted only when one of its owner references
carries the Mask's uid; a 404 or an owner mismatch yields `None`.  The outer
`Option` models the unwraps of the Mask's name, namespace and uid. -/
def mask_get_consumer (lookup : Except KubeError MaskConsumer) (instance' : Mask) :
    Option (Except KubeError (Option MaskConsumer)) :=
  match instance'.metadata.name, instance'.metadata.namespace', instance'.metadata.uid with
  | some _mask_name, some _mask_namespace, some mask_uid =>
    some (match lookup with
      | Except.ok mc =>
        if (mc.metadata.owner_references.getD []).any (fun r => r.uid == mask_uid) then
          Except.ok (some mc)
        else Except.ok none
      | Except.error e =>
        if is_not_found e then Except.ok none else Except.error e)
  | _, _, _ => none

/-- Modelled from the spec: the phase written to a Mask as a function of its
child consumer's phase (spec section 4.6, item 4: `Pending | Waiting |
Terminating → Waiting`, `Active → Active`, `ErrNoProviders →
ErrNoProviders`).  The Mask reconciler revision that performs this mapping is
not part of the tree (the masks/reconcile.rs present predates the
MaskConsumer split and reads a status field the current types no longer
have), so the mapping is modelled from the spec's words. -/
def mask_phase_for_consumer : MaskConsumerPhase → MaskPhase
  | MaskConsumerPhase.Pending => MaskPhase.Waiting
  | MaskConsumerPhase.Waiting => MaskPhase.Waiting
  | MaskConsumerPhase.Terminating => MaskPhase.Waiting
  | MaskConsumerPhase.Active => MaskPhase.Active
  | MaskConsumerPhase.ErrNoProviders => MaskPhase.ErrNoProviders

/-- Modelled from the spec: the actions of the Mask reconciler per spec
section 4.6 (delete path, pending, create-consumer, phase write, no-op). -/
inductive MaskAction where
  | Delete
  | Pending
  | CreateConsumer
  | SetPhase (phase : MaskPhase)
  | NoOp
deriving Repr, DecidableEq

/-- Modelled from the spec: the current Mask reconciler's `determine_action`
(missing from the tree, see `mask_phase_for_consumer`), assembled from spec
section 4.6 in the priority order given there, with the source-present
helpers `mask_needs_pending`, `mask_get_consumer` and `get_mask_phase`
embedded above: delete path when the deletion timestamp is set; pending when
status or phase is missing; create the child consumer when it is absent;
otherwise map the consumer's phase and write it only when it differs from
the Mask's phase or the status is older than the probe interval.  `none`
models a panic or a case the spec leaves unspecified (a consumer with no
phase). -/
def mask_determine_action (lookup : Except KubeError MaskConsumer)
    (age? : Option Nat) (instance' : Mask) :
    Option (Except OpError MaskAction) :=
  if instance'.metadata.deletion_timestamp.isSome = true then
    some (Except.ok MaskAction.Delete)
  else if mask_needs_pending instance' = true then
    some (Except.ok MaskAction.Pending)
  else
    match mask_get_consumer lookup instance' with
    | none => none
    | some (Except.error e) => some (Except.error (OpError.kube e))
    | some (Except.ok none) => some (Except.ok MaskAction.CreateConsumer)
    | some (Except.ok (some mc)) =>
      match mc.status with
      | none => none
      | some cstatus =>
        match cstatus.phase with
        | none => none
        | some cphase =>
          match get_mask_phase age? instance' with
          | Except.error e => some (Except.error e)
          | Except.ok (phase, age) =>
            let target := mask_phase_for_consumer cphase
            some (Except.ok (if target ≠ phase ∨ age > PROBE_INTERVAL then
              MaskAction.SetPhase target else MaskAction.NoOp))

/-- C4: for a Mask that is not being deleted and has a phase, the decided
action writes the Mask phase as the deterministic image of its child
consumer's phase — Pending, Waiting, Terminating mapping to Waiting, Active
to Active, ErrNoProviders to ErrNoProviders — and the write happens exactly
when the mapped phase differs from the Mask's current phase or the status is
older than the probe interval. -/
theorem mask_phase_mirror (lookup : Except KubeError MaskConsumer)
    (m : Mask) (mc : MaskConsumer) (st : MaskStatus) (cst : MaskConsumerStatus)
    (p : MaskPhase) (cphase : MaskConsumerPhase) (age : Nat)
    (mn mns mu ts : String)
    (h0 : m.metadata.deletion_timestamp = none)
    (hn : m.metadata.name = some mn)
    (hns : m.metadata.namespace' = some mns)
    (hu : m.metadata.uid = some mu)
    (hst : m.status = some st)
    (hp : st.phase = some p)
    (hts : st.last_updated = some ts)
    (hlk : lookup = Except.ok mc)
    (hor : (mc.metadata.owner_references.getD []).any (fun r => r.uid == mu) = true)
    (hcst : mc.status = some cst)
    (hcp : cst.phase = some cphase) :
    mask_determine_action lookup (some age) m =
      some (Except.ok (if mask_phase_for_consumer cphase ≠ p ∨ age > PROBE_INTERVAL then
        MaskAction.SetPhase (mask_phase_for_consumer cphase) else MaskAction.NoOp)) ∧
    mask_phase_for_consumer MaskConsumerPhase.Pending = MaskPhase.Waiting ∧
    mask_phase_for_consumer MaskConsumerPhase.Waiting = MaskPhase.Waiting ∧
    mask_phase_for_consumer MaskConsumerPhase.Terminating = MaskPhase.Waiting ∧
    mask_phase_for_consumer MaskConsumerPhase.Active = MaskPhase.Active ∧
    mask_phase_for_consumer MaskConsumerPhase.ErrNoProviders = MaskPhase.ErrNoProviders := by
  refine ⟨?_, rfl, rfl, rfl, rfl, rfl⟩
  have hgc : mask_get_consumer lookup m = some (Except.ok (some mc)) := by
    unfold mask_get_consumer
    rw [hn, hns, hu, hlk]
    simp only [hor, if_pos]
  have hnp : mask_needs_pending m = false := by
    unfold mask_needs_pending
    simp only [hst, hp, Option.isNone_some]
  have hph : get_mask_phase (some age) m = Except.ok (p, age) := by
    unfold get_mask_phase
    simp only [hst, hp, hts]
  unfold mask_determine_action
  rw [h0]
  simp only [Option.isSome_none, Bool.false_eq_true, if_false, hnp, hgc, hcst, hcp, hph]

/-- Witness Mask with phase Waiting and a fresh status. -/
def maskW : Mask :=
  { metadata := { name := some "m1", namespace' := some "apps", uid := some "mu1" }
    status := some { phase := some MaskPhase.Waiting
                     last_updated := some "2024-01-01T00:00:00Z" } }

/-- Witness child consumer of `maskW`, in phase Active. -/
def mcW : MaskConsumer :=
  { metadata := { name := some "m1", namespace' := some "apps", uid := some "cu1"
                  owner_references := some [{ name := "m1", uid := "mu1" }] }
    status := some { phase := some MaskConsumerPhase.Active } }

/-- Witness for the phase mirror at a concrete Mask whose consumer is
Active while the Mask is still Waiting: the decided action writes phase
Active. -/
theorem mask_phase_mirror_witness :
    mask_determine_action (Except.ok mcW) (some 0) maskW =
      some (Except.ok (if mask_phase_for_consumer MaskConsumerPhase.Active ≠ MaskPhase.Waiting
          ∨ 0 > PROBE_INTERVAL then
        MaskAction.SetPhase (mask_phase_for_consumer MaskConsumerPhase.Active)
        else MaskAction.NoOp)) ∧
    mask_phase_for_consumer MaskConsumerPhase.Pending = MaskPhase.Waiting ∧
    mask_phase_for_consumer MaskConsumerPhase.Waiting = MaskPhase.Waiting ∧
    mask_phase_for_consumer MaskConsumerPhase.Terminating = MaskPhase.Waiting ∧
    mask_phase_for_consumer MaskConsumerPhase.Active = MaskPhase.Active ∧
    mask_phase_for_consumer MaskConsumerPhase.ErrNoProviders = MaskPhase.ErrNoProviders :=
  mask_phase_mirror (Except.ok mcW) maskW mcW
    { phase := some MaskPhase.Waiting, last_updated := some "2024-01-01T00:00:00Z" }
    { phase := some MaskConsumerPhase.Active }
    MaskPhase.Waiting MaskConsumerPhase.Active 0
    "m1" "apps" "mu1" "2024-01-01T00:00:00Z"
    rfl rfl rfl rfl rfl rfl rfl rfl (by decide) rfl rfl

example : parse_usize "17" = some 17 := by decide
example : parse_usize "+3" = some 3 := by decide
example : parse_usize "" = none := by decide
example : parse_usize "a7" = none := by decide
example : slot_of_name "my-provider-12" = some 12 := by decide
example : slot_of_name "my-provider-x" = none := by decide
example : slot_of_name "7" = some 7 := by decide
